import Mathlib

/-!
# lib/vtls/networkfmwk.c : the Network.framework TLS backend

A shallow embedding of the backend's entry points.  The asynchronous platform
(Network.framework, libdispatch, Security) is not part of the program: what it
answers to one call (the object `nw_connection_create` returns, the state-change
notifications it delivers while the calling thread sits in
`dispatch_semaphore_wait`, the arguments of a receive completion) is an explicit
input of the embedded function.  Every platform call the C code makes, and every
write to the two framework-owned connect-phase fields, is appended to a trace so
that "is called", "is not called" and "exactly once" are statements about lists.
-/

namespace Networkfmwk

/-! ## Platform types -/

/-- Raw value of the C enumeration `nw_error_domain_t` (Network/error.h):
invalid = 0, posix = 1, dns = 2, tls = 3; any other number is a value the
switch in `code_from_error` does not recognise. -/
abbrev nw_error_domain_t := Nat

abbrev nw_error_domain_invalid : nw_error_domain_t := 0

abbrev nw_error_domain_posix : nw_error_domain_t := 1

abbrev nw_error_domain_dns : nw_error_domain_t := 2

abbrev nw_error_domain_tls : nw_error_domain_t := 3

/-- The object behind a non-nil `nw_error_t`: its domain and its code. -/
structure nw_error where
  domain : nw_error_domain_t
  code : Int
deriving DecidableEq, Repr

/-- A `nw_error_t` reference; `none` is `nil`. -/
abbrev nw_error_t := Option nw_error

/-- Accessor `nw_error_get_error_domain`. -/
def nw_error_get_error_domain (error : nw_error) : nw_error_domain_t :=
  error.domain

/-- Raw value of the C enumeration `nw_connection_state_t`
(Network/connection.h): invalid = 0, waiting = 1, preparing = 2, ready = 3,
failed = 4, cancelled = 5. -/
abbrev nw_connection_state_t := Nat

abbrev nw_connection_state_invalid : nw_connection_state_t := 0

abbrev nw_connection_state_waiting : nw_connection_state_t := 1

abbrev nw_connection_state_preparing : nw_connection_state_t := 2

abbrev nw_connection_state_ready : nw_connection_state_t := 3

abbrev nw_connection_state_failed : nw_connection_state_t := 4

abbrev nw_connection_state_cancelled : nw_connection_state_t := 5

/-- Identity of a connection object; a NULL reference is `none` of the option. -/
abbrev nw_connection_t := Nat

/-- Identity of a dispatch queue. -/
abbrev dispatch_queue_t := Nat

/-- One invocation of a state-changed handler: the two block arguments. -/
structure Notification where
  state : nw_connection_state_t
  error : nw_error_t
deriving DecidableEq, Repr

/-- Content of a `dispatch_data_t`: its contiguous regions in order, each a run
of bytes. -/
abbrev dispatch_data := List (List Nat)

/-- Arguments of one receive completion (context is unused by the code). -/
structure ReceiveCompletion where
  content : Option dispatch_data
  is_complete : Bool
  error : nw_error_t
deriving DecidableEq, Repr

/-! ## Types of the surrounding library -/

/-- Modelled from the spec: the `CURLcode` enumeration is declared in curl.h,
which is not among the sources; these are the outcome codes the file uses, one
per outcome of the spec's error taxonomy, all distinct, `CURLE_OK` being the
success value that `if(result)` tests against. -/
inductive CURLcode where
  | CURLE_OK
  | CURLE_COULDNT_RESOLVE_HOST
  | CURLE_COULDNT_CONNECT
  | CURLE_WRITE_ERROR
  | CURLE_READ_ERROR
  | CURLE_SSL_CONNECT_ERROR
  | CURLE_SEND_ERROR
  | CURLE_RECV_ERROR
deriving DecidableEq, Repr

/-- Modelled from the spec: the framework's `connssl->state` enumeration
(declared outside the sources); the backend writes `negotiating` and
`complete`. -/
inductive ssl_connection_state where
  | ssl_connection_none
  | ssl_connection_negotiating
  | ssl_connection_complete
deriving DecidableEq, Repr

/-- Modelled from the spec: the framework's `connssl->connecting_state`
enumeration (declared outside the sources); the backend writes `ssl_connect_2`
while negotiating and `ssl_connect_done` on completion. -/
inductive ssl_connect_state where
  | ssl_connect_1
  | ssl_connect_2
  | ssl_connect_3
  | ssl_connect_done
deriving DecidableEq, Repr

/-- The three state-changed handler blocks the file defines. -/
inductive Observer where
  | conn_handler
  | handler
  | shutdown_handler
deriving DecidableEq, Repr

/-- What the code does to the outside world, in program order: the platform
calls, the copies into the caller's buffer and the writes to the framework's
connect-phase fields. -/
inductive Action where
  | nw_endpoint_create_host
  | nw_tls_copy_sec_protocol_options
  | sec_protocol_options_set_verify_block
  | nw_parameters_create_secure_tcp
  | nw_connection_create (c : nw_connection_t)
  | nw_connection_set_queue (c : nw_connection_t)
  | nw_connection_set_state_changed_handler (c : nw_connection_t) (o : Observer)
  | nw_connection_start (c : nw_connection_t)
  | nw_connection_cancel (c : nw_connection_t)
  | nw_connection_receive (c : Option nw_connection_t) (minimum maximum : Nat)
  | nw_release (c : nw_connection_t)
  | dispatch_semaphore_create
  | dispatch_semaphore_wait
  | dispatch_semaphore_signal
  | dispatch_release
  | memcpy (offset : Nat) (src : List Nat)
  | set_state (v : ssl_connection_state)
  | set_connecting_state (v : ssl_connect_state)
deriving DecidableEq, Repr

/-- The struct of lines 45-51. -/
structure network_ssl_backend_data where
  connection : Option nw_connection_t
  queue : Option dispatch_queue_t
  done : Bool
  connected : Bool
  error : CURLcode
deriving DecidableEq, Repr

/-- The part of `struct ssl_connect_data` the file touches. -/
structure ssl_connect_data where
  backend : network_ssl_backend_data
  state : ssl_connection_state
  connecting_state : ssl_connect_state
deriving DecidableEq, Repr

/-- The part of `struct ssl_primary_config` the file reads. -/
structure ssl_primary_config where
  verifypeer : Bool
deriving DecidableEq, Repr

/-- Program state reachable from a filter `cf`: the static `network_queue`,
`cf->ctx`, what `Curl_ssl_cf_get_primary_config(cf)` returns, and the trace of
actions performed so far. -/
structure Machine where
  network_queue : Option dispatch_queue_t
  conn_config : ssl_primary_config
  connssl : ssl_connect_data
  trace : List Action
deriving DecidableEq, Repr

/-- A thread inside an entry point: the program state, the caller's `*done`
and the value of the semaphore the call created. -/
structure Waiter where
  m : Machine
  done : Bool
  semaphore : Nat
deriving DecidableEq, Repr

/-- What a call of an entry point leaves behind: the program state, the caller's
`*done`, and the returned value, `none` when the call never returns because
the thread stays in `dispatch_semaphore_wait`. -/
structure Outcome where
  m : Machine
  done : Bool
  ret : Option CURLcode
deriving DecidableEq, Repr

/-! ## Small state updates -/

def Machine.emit (m : Machine) (a : List Action) : Machine :=
  { m with trace := m.trace ++ a }

def Machine.set_backend (m : Machine) (b : network_ssl_backend_data) : Machine :=
  { m with connssl := { m.connssl with backend := b } }

def Machine.backend (m : Machine) : network_ssl_backend_data :=
  m.connssl.backend

/-! ## Error Mapper (lines 55-82) -/

def code_from_error (error : nw_error_t) : CURLcode :=
  match error with
  | none => CURLcode.CURLE_OK
  | some e =>
    let domain := nw_error_get_error_domain e
    if domain = nw_error_domain_posix then CURLcode.CURLE_WRITE_ERROR
    else if domain = nw_error_domain_dns then CURLcode.CURLE_COULDNT_RESOLVE_HOST
    else if domain = nw_error_domain_tls then CURLcode.CURLE_SSL_CONNECT_ERROR
    else CURLcode.CURLE_COULDNT_CONNECT

/-! ## The rendezvous -/

/-- The calling thread in `dispatch_semaphore_wait(semaphore,
DISPATCH_TIME_FOREVER)`: while the semaphore is zero the queue hands the next
notification to the installed observer; as soon as it is positive the wait
takes one unit and returns (`true`).  When the platform delivers nothing more
and the semaphore is still zero the thread stays blocked (`false`). -/
def semaphore_wait (observer : Notification → Waiter → Waiter) :
    List Notification → Waiter → Waiter × Bool
  | [], w =>
    if 0 < w.semaphore then ({ w with semaphore := w.semaphore - 1 }, true)
    else (w, false)
  | n :: rest, w =>
    if 0 < w.semaphore then ({ w with semaphore := w.semaphore - 1 }, true)
    else semaphore_wait observer rest (observer n w)

/-! ## Connect (lines 132-254) -/

/-- The block `verify_block` of lines 161-165, in continuation-passing form:
`complete` is the completion the platform passes in. -/
def verify_block {α : Type} (_metadata _trust_ref : Nat) (complete : Bool → α) : α :=
  complete true

/-- The block `configure_tls` of lines 155-170. -/
def configure_tls (conn_config : ssl_primary_config) (m : Machine) : Machine :=
  if !conn_config.verifypeer then
    m.emit [Action.nw_tls_copy_sec_protocol_options,
            Action.sec_protocol_options_set_verify_block]
  else m

/-- Platform call `nw_parameters_create_secure_tcp`: it runs the TLS
configuration block once on the new parameters' TLS options. -/
def nw_parameters_create_secure_tcp (configure : Machine → Machine) (m : Machine) :
    Machine :=
  configure (m.emit [Action.nw_parameters_create_secure_tcp])

/-- The block `handler` of lines 176-180. -/
def handler (n : Notification) (m : Machine) : Machine :=
  if n.error.isSome then
    m.set_backend { m.backend with error := code_from_error n.error }
  else m

/-- The block `conn_handler` of lines 183-203. -/
def conn_handler (n : Notification) (w : Waiter) : Waiter :=
  let m := handler n w.m
  if n.state = nw_connection_state_preparing then
    let m := { m with connssl := { m.connssl with
                 state := ssl_connection_state.ssl_connection_negotiating } }
    let m := m.emit [Action.set_state ssl_connection_state.ssl_connection_negotiating]
    let m := { m with connssl := { m.connssl with
                 connecting_state := ssl_connect_state.ssl_connect_2 } }
    let m := m.emit [Action.set_connecting_state ssl_connect_state.ssl_connect_2]
    { w with m := m }
  else
    let m := m.set_backend { m.backend with done := true }
    let m := { m with connssl := { m.connssl with
                 connecting_state := ssl_connect_state.ssl_connect_done } }
    let m := m.emit [Action.set_connecting_state ssl_connect_state.ssl_connect_done]
    let m := { m with connssl := { m.connssl with
                 state := ssl_connection_state.ssl_connection_complete } }
    let m := m.emit [Action.set_state ssl_connection_state.ssl_connection_complete]
    let m := m.emit [Action.dispatch_semaphore_signal]
    { m := m, done := true, semaphore := w.semaphore + 1 }

/-- Function `network_connect_start`, lines 132-211.  `created` is the object
`nw_connection_create` returns, `events` the notifications the platform
delivers to the connection's state-changed handler from `nw_connection_start`
on. -/
def network_connect_start (m : Machine) (done : Bool) (created : nw_connection_t)
    (events : List Notification) : Outcome :=
  let m := m.set_backend { m.backend with error := CURLcode.CURLE_OK }
  let m := m.set_backend { m.backend with queue := m.network_queue }
  let m := m.emit [Action.nw_endpoint_create_host]
  let conn_config := m.conn_config
  let m := nw_parameters_create_secure_tcp (configure_tls conn_config) m
  let m := (m.emit [Action.nw_connection_create created]).set_backend
             { m.backend with connection := some created }
  let m := m.emit [Action.nw_connection_set_queue created]
  let m := m.emit [Action.dispatch_semaphore_create]
  let m := m.emit [Action.nw_connection_set_state_changed_handler created
                     Observer.conn_handler]
  let m := m.emit [Action.nw_connection_start created]
  let m := m.emit [Action.dispatch_semaphore_wait]
  let r := semaphore_wait conn_handler events { m := m, done := done, semaphore := 0 }
  if r.2 then
    let m := r.1.m.emit [Action.nw_connection_set_state_changed_handler created
                           Observer.handler]
    let m := m.emit [Action.dispatch_release]
    { m := m, done := r.1.done, ret := some m.backend.error }
  else
    { m := r.1.m, done := r.1.done, ret := none }

/-- Lines 227-231 of `network_connect_common`: the answer read off the backend
state. -/
def connect_report (m : Machine) (done : Bool) : Outcome :=
  let done := if m.backend.done then true else done
  { m := m, done := done, ret := some m.backend.error }

/-- Function `network_connect_common`, lines 213-232. -/
def network_connect_common (m : Machine) (done : Bool) (created : nw_connection_t)
    (events : List Notification) : Outcome :=
  if m.backend.connection.isNone then
    let started := network_connect_start m done created events
    match started.ret with
    | none => started
    | some result =>
      if result ≠ CURLcode.CURLE_OK then started
      else connect_report started.m started.done
  else connect_report m done

/-- Function `network_connect_nonblocking`, lines 234-239. -/
def network_connect_nonblocking (m : Machine) (done : Bool) (created : nw_connection_t)
    (events : List Notification) : Outcome :=
  network_connect_common m done created events

/-- The caller's re-poll pattern: `network_connect_nonblocking` is invoked again
and again on the same filter, each invocation with what the platform would
answer to it (the object a create would return, the notifications it would
deliver); a call that never returns is the last one. -/
def repoll : List (nw_connection_t × List Notification) → Machine → Bool → Machine × Bool
  | [], m, done => (m, done)
  | (created, events) :: later, m, done =>
    let r := network_connect_nonblocking m done created events
    match r.ret with
    | none => (r.m, r.done)
    | some _ => repoll later r.m r.done

/-- Whether an action creates a connection object. -/
def Action.is_create : Action → Bool
  | Action.nw_connection_create _ => true
  | _ => false

/-- The error of the last notification of a sequence that carried one, `none`
when no notification carried an error. -/
def last_error : List Notification → nw_error_t
  | [] => none
  | n :: rest =>
    match last_error rest with
    | some e => some e
    | none => n.error

/-- The writes of `k` preparing notifications handled by the connect observer. -/
def negotiating_writes : Nat → List Action
  | 0 => []
  | k + 1 =>
    Action.set_state ssl_connection_state.ssl_connection_negotiating ::
      Action.set_connecting_state ssl_connect_state.ssl_connect_2 :: negotiating_writes k

/-- What the connect observer appends to the trace over a sequence made of
`k` preparing notifications followed by one notification of another state. -/
def connect_observer_trace (k : Nat) : List Action :=
  negotiating_writes k ++
    [Action.set_connecting_state ssl_connect_state.ssl_connect_done,
     Action.set_state ssl_connection_state.ssl_connection_complete,
     Action.dispatch_semaphore_signal]

/-- The backend error field after the observers of a connect attempt have seen
a sequence of notifications, starting from the value `e`. -/
def captured_error : List Notification → CURLcode → CURLcode
  | [], e => e
  | n :: rest, e =>
    captured_error rest (if n.error.isSome then code_from_error n.error else e)

/-- The actions of `network_connect_start` before the wait, lines 148-206. -/
def connect_setup_trace (verifypeer : Bool) (created : nw_connection_t) : List Action :=
  [Action.nw_endpoint_create_host, Action.nw_parameters_create_secure_tcp] ++
    (if verifypeer then []
     else [Action.nw_tls_copy_sec_protocol_options,
           Action.sec_protocol_options_set_verify_block]) ++
    [Action.nw_connection_create created,
     Action.nw_connection_set_queue created,
     Action.dispatch_semaphore_create,
     Action.nw_connection_set_state_changed_handler created Observer.conn_handler,
     Action.nw_connection_start created,
     Action.dispatch_semaphore_wait]

/-- The actions an observer block can perform: writes of the two connect-phase
fields and the signal. -/
def Action.is_observer_write : Action → Bool
  | Action.set_state _ => true
  | Action.set_connecting_state _ => true
  | Action.dispatch_semaphore_signal => true
  | _ => false

/-- A filter on which no connect has been attempted: no connection object,
flags clear, peer verification on, nothing done yet. -/
def idle_machine : Machine :=
  { network_queue := some 0,
    conn_config := { verifypeer := true },
    connssl :=
      { backend := { connection := none, queue := none, done := false,
                     connected := false, error := CURLcode.CURLE_OK },
        state := ssl_connection_state.ssl_connection_none,
        connecting_state := ssl_connect_state.ssl_connect_1 },
    trace := [] }

/-- A filter whose connect attempt on object 7 has completed without error. -/
def connected_machine : Machine :=
  { network_queue := some 0,
    conn_config := { verifypeer := true },
    connssl :=
      { backend := { connection := some 7, queue := some 0, done := true,
                     connected := false, error := CURLcode.CURLE_OK },
        state := ssl_connection_state.ssl_connection_complete,
        connecting_state := ssl_connect_state.ssl_connect_done },
    trace := [] }

/-! ## Receive (lines 313-368) -/

/-- Conversion of a `size_t` value to `ssize_t` (64-bit two's complement). -/
def ssize_t_of_size_t (n : Nat) : Int :=
  if n % 2 ^ 64 < 2 ^ 63 then ((n % 2 ^ 64 : Nat) : Int)
  else ((n % 2 ^ 64 : Nat) : Int) - 2 ^ 64

/-- Library call `memcpy(dst + offset, src, src.length)` on memory addressed
relative to `dst`. -/
def memcpy (dst : Nat → Nat) (offset : Nat) (src : List Nat) : Nat → Nat :=
  fun i => if offset ≤ i ∧ i < offset + src.length then src.getD (i - offset) 0 else dst i

/-- Platform call `dispatch_data_get_size`. -/
def dispatch_data_get_size (content : dispatch_data) : Nat :=
  (content.map List.length).sum

/-- Platform call `dispatch_data_apply`, from the region that starts at
`offset`: the applier sees each region with its offset in the whole content,
in order, until it returns false. -/
def dispatch_data_apply_from {σ : Type} (applier : Nat → List Nat → σ → σ × Bool) :
    Nat → dispatch_data → σ → σ
  | _, [], s => s
  | offset, region :: rest, s =>
    let r := applier offset region s
    if r.2 then dispatch_data_apply_from applier (offset + region.length) rest r.1
    else r.1

/-- Platform call `dispatch_data_apply`. -/
def dispatch_data_apply {σ : Type} (content : dispatch_data)
    (applier : Nat → List Nat → σ → σ × Bool) (s : σ) : σ :=
  dispatch_data_apply_from applier 0 content s

/-- A thread inside `network_recv`: program state, memory at the caller's `buf`
(indexed by offset from `buf`), the caller's `*err`, the block variable
`bytes_read` and the semaphore. -/
structure Receiver where
  m : Machine
  buf : Nat → Nat
  err : CURLcode
  bytes_read : Int
  semaphore : Nat

/-- What a call of `network_recv` leaves behind; `ret` is `none` when the call
never returns. -/
structure RecvOutcome where
  m : Machine
  buf : Nat → Nat
  err : CURLcode
  ret : Option Int

/-- The block `applier` of lines 351-355. -/
def recv_applier (offset : Nat) (buffer : List Nat) (s : Receiver) : Receiver × Bool :=
  ({ s with buf := memcpy s.buf offset buffer,
            m := s.m.emit [Action.memcpy offset buffer] }, true)

/-- The block `completion` of lines 327-361. -/
def recv_completion (len : Nat) (c : ReceiveCompletion) (s : Receiver) : Receiver :=
  if c.error.isSome then
    { s with err := CURLcode.CURLE_RECV_ERROR,
             m := s.m.emit [Action.dispatch_semaphore_signal],
             semaphore := s.semaphore + 1 }
  else
    match c.content with
    | none =>
      { s with bytes_read := 0, err := CURLcode.CURLE_OK,
               m := s.m.emit [Action.dispatch_semaphore_signal],
               semaphore := s.semaphore + 1 }
    | some content =>
      let size := dispatch_data_get_size content
      let size := if size > len then len else size
      let s := dispatch_data_apply content recv_applier s
      { s with bytes_read := ssize_t_of_size_t size, err := CURLcode.CURLE_OK,
               m := s.m.emit [Action.dispatch_semaphore_signal],
               semaphore := s.semaphore + 1 }

/-- Function `network_recv`, lines 313-368.  `completion` is the one
invocation of the receive completion the platform makes, `none` when it never
makes it. -/
def network_recv (m : Machine) (buf : Nat → Nat) (len : Nat) (err : CURLcode)
    (completion : Option ReceiveCompletion) : RecvOutcome :=
  let m := m.emit [Action.dispatch_semaphore_create]
  let m := m.emit [Action.nw_connection_receive m.backend.connection 1 (len % 2 ^ 32)]
  let m := m.emit [Action.dispatch_semaphore_wait]
  let s : Receiver := { m := m, buf := buf, err := err, bytes_read := -1, semaphore := 0 }
  match completion with
  | none => { m := s.m, buf := s.buf, err := s.err, ret := none }
  | some c =>
    let s := recv_completion len c s
    if 0 < s.semaphore then
      { m := s.m.emit [Action.dispatch_release], buf := s.buf, err := s.err,
        ret := some s.bytes_read }
    else { m := s.m, buf := s.buf, err := s.err, ret := none }

/-- Number of bytes the actions of a trace copy into the caller's buffer. -/
def bytes_copied : List Action → Nat
  | [] => 0
  | Action.memcpy _ src :: rest => src.length + bytes_copied rest
  | _ :: rest => bytes_copied rest

/-- The block `handler` of `network_shutdown`, lines 385-405. -/
def shutdown_handler (n : Notification) (w : Waiter) : Waiter :=
  let m :=
    if n.error.isSome then
      w.m.set_backend { w.m.backend with error := code_from_error n.error }
    else w.m
  if n.state = nw_connection_state_cancelled then
    { m := m.emit [Action.dispatch_semaphore_signal], done := true,
      semaphore := w.semaphore + 1 }
  else if n.state = nw_connection_state_invalid ∨ n.state = nw_connection_state_failed then
    let m := m.set_backend { m.backend with error := CURLcode.CURLE_READ_ERROR }
    { m := m.emit [Action.dispatch_semaphore_signal], done := true,
      semaphore := w.semaphore + 1 }
  else { w with m := m }

/-- Function `network_shutdown`, lines 370-414.  `events` are the notifications
the platform delivers to the connection's state-changed handler from
`nw_connection_cancel` on. -/
def network_shutdown (m : Machine) (done : Bool) (events : List Notification) : Outcome :=
  let result := CURLcode.CURLE_OK
  match m.backend.connection with
  | some c =>
    let m := m.emit [Action.dispatch_semaphore_create]
    let m := m.emit [Action.nw_connection_set_state_changed_handler c
                       Observer.shutdown_handler]
    let m := m.emit [Action.nw_connection_cancel c]
    let m := m.emit [Action.dispatch_semaphore_wait]
    let r := semaphore_wait shutdown_handler events { m := m, done := done, semaphore := 0 }
    if r.2 then
      let m := r.1.m.emit [Action.dispatch_release]
      { m := m, done := r.1.done, ret := some m.backend.error }
    else { m := r.1.m, done := r.1.done, ret := none }
  | none => { m := m, done := done, ret := some result }

/-- Function `network_close`, lines 424-434. -/
def network_close (m : Machine) : Machine :=
  match m.backend.connection with
  | some c =>
    (m.emit [Action.nw_release c]).set_backend { m.backend with connection := none }
  | none => m

/-- The actions of `network_shutdown` before the wait, lines 384-408. -/
def shutdown_setup_trace (c : nw_connection_t) : List Action :=
  [Action.dispatch_semaphore_create,
   Action.nw_connection_set_state_changed_handler c Observer.shutdown_handler,
   Action.nw_connection_cancel c,
   Action.dispatch_semaphore_wait]

/-! ## Lemmas on the observers -/

theorem code_from_error_some_ne_ok (e : nw_error) :
    code_from_error (some e) ≠ CURLcode.CURLE_OK := by
  unfold code_from_error
  simp only []
  split_ifs <;> simp

theorem captured_error_append (xs ys : List Notification) (e : CURLcode) :
    captured_error (xs ++ ys) e = captured_error ys (captured_error xs e) := by
  induction xs generalizing e with
  | nil => rfl
  | cons x xs ih => simp [captured_error, ih]

theorem last_error_append_single (xs : List Notification) (t : Notification) :
    last_error (xs ++ [t]) = match t.error with
      | some e => some e
      | none => last_error xs := by
  induction xs with
  | nil => cases h : t.error <;> simp [last_error, h]
  | cons x xs ih =>
    rw [List.cons_append]
    simp only [last_error]
    rw [ih]
    cases h : t.error <;> simp

theorem captured_error_eq (xs : List Notification) (e : CURLcode) :
    captured_error xs e = match last_error xs with
      | some x => code_from_error (some x)
      | none => e := by
  induction xs using List.reverseRecOn generalizing e with
  | nil => rfl
  | append_singleton xs t ih =>
    rw [captured_error_append, last_error_append_single, ih]
    cases h : t.error with
    | some x => simp [captured_error, h]
    | none => simp [captured_error, h]

theorem semaphore_wait_step (observer : Notification → Waiter → Waiter)
    (n : Notification) (rest : List Notification) (w : Waiter) (h : w.semaphore = 0) :
    semaphore_wait observer (n :: rest) w = semaphore_wait observer rest (observer n w) := by
  simp [semaphore_wait, h]

theorem semaphore_wait_signalled (observer : Notification → Waiter → Waiter)
    (events : List Notification) (w : Waiter) (h : 0 < w.semaphore) :
    semaphore_wait observer events w = ({ w with semaphore := w.semaphore - 1 }, true) := by
  cases events <;> simp [semaphore_wait, h]

theorem semaphore_wait_starved (observer : Notification → Waiter → Waiter)
    (w : Waiter) (h : w.semaphore = 0) :
    semaphore_wait observer [] w = (w, false) := by
  simp [semaphore_wait, h]

theorem connect_wait_run (pre : List Notification) (t : Notification)
    (rest : List Notification) (w : Waiter)
    (hpre : ∀ n ∈ pre, n.state = nw_connection_state_preparing)
    (ht : t.state ≠ nw_connection_state_preparing) (hs : w.semaphore = 0) :
    semaphore_wait conn_handler (pre ++ t :: rest) w =
      ({ m := { network_queue := w.m.network_queue,
                conn_config := w.m.conn_config,
                connssl :=
                  { backend := { w.m.backend with
                      error := captured_error (pre ++ [t]) w.m.backend.error,
                      done := true },
                    state := ssl_connection_state.ssl_connection_complete,
                    connecting_state := ssl_connect_state.ssl_connect_done },
                trace := w.m.trace ++ connect_observer_trace pre.length },
         done := true, semaphore := 0 }, true) := by
  induction pre generalizing w with
  | nil =>
    have h1 : 0 < (conn_handler t w).semaphore := by
      simp [conn_handler, ht, hs]
    rw [List.nil_append, semaphore_wait_step _ _ _ _ hs, semaphore_wait_signalled _ _ _ h1]
    simp [conn_handler, ht, hs, handler, Machine.emit, Machine.set_backend, Machine.backend,
      captured_error, connect_observer_trace, negotiating_writes]
    split_ifs <;> simp
  | cons p pre ih =>
    have hp : p.state = nw_connection_state_preparing := hpre p (by simp)
    have hpre2 : ∀ n ∈ pre, n.state = nw_connection_state_preparing :=
      fun n hn => hpre n (by simp [hn])
    have h0 : (conn_handler p w).semaphore = 0 := by
      simp [conn_handler, hp, hs]
    rw [List.cons_append, semaphore_wait_step _ _ _ _ hs, ih (conn_handler p w) hpre2 h0]
    simp [conn_handler, hp, handler, Machine.emit, Machine.set_backend, Machine.backend,
      captured_error, connect_observer_trace, negotiating_writes]
    split_ifs <;> simp

theorem connect_wait_frame (events : List Notification) (w : Waiter) :
    (semaphore_wait conn_handler events w).1.m.conn_config = w.m.conn_config ∧
    (semaphore_wait conn_handler events w).1.m.network_queue = w.m.network_queue ∧
    (semaphore_wait conn_handler events w).1.m.backend.connection = w.m.backend.connection ∧
    ∃ extra, (semaphore_wait conn_handler events w).1.m.trace = w.m.trace ++ extra ∧
      ∀ a ∈ extra, a.is_observer_write = true := by
  induction events generalizing w with
  | nil =>
    refine ⟨?_, ?_, ?_, [], ?_, ?_⟩ <;> simp [semaphore_wait] <;> split_ifs <;> simp
  | cons n rest ih =>
    by_cases h : 0 < w.semaphore
    · rw [semaphore_wait_signalled _ _ _ h]
      exact ⟨rfl, rfl, rfl, [], by simp, by simp⟩
    · have h0 : w.semaphore = 0 := by omega
      rw [semaphore_wait_step _ _ _ _ h0]
      obtain ⟨h1, h2, h3, extra, h4, h5⟩ := ih (conn_handler n w)
      have g1 : (conn_handler n w).m.conn_config = w.m.conn_config := by
        simp only [conn_handler, handler, Machine.emit, Machine.set_backend, Machine.backend]
        split_ifs <;> rfl
      have g2 : (conn_handler n w).m.network_queue = w.m.network_queue := by
        simp only [conn_handler, handler, Machine.emit, Machine.set_backend, Machine.backend]
        split_ifs <;> rfl
      have g3 : (conn_handler n w).m.backend.connection = w.m.backend.connection := by
        simp only [conn_handler, handler, Machine.emit, Machine.set_backend, Machine.backend]
        split_ifs <;> rfl
      have g4 : ∃ step, (conn_handler n w).m.trace = w.m.trace ++ step ∧
          ∀ a ∈ step, a.is_observer_write = true := by
        by_cases hp : n.state = nw_connection_state_preparing
        · refine ⟨[Action.set_state ssl_connection_state.ssl_connection_negotiating,
            Action.set_connecting_state ssl_connect_state.ssl_connect_2], ?_, ?_⟩
          · by_cases he : n.error.isSome <;>
              simp [conn_handler, handler, Machine.emit, Machine.set_backend,
                Machine.backend, hp, he]
          · simp [Action.is_observer_write]
        · refine ⟨[Action.set_connecting_state ssl_connect_state.ssl_connect_done,
            Action.set_state ssl_connection_state.ssl_connection_complete,
            Action.dispatch_semaphore_signal], ?_, ?_⟩
          · by_cases he : n.error.isSome <;>
              simp [conn_handler, handler, Machine.emit, Machine.set_backend,
                Machine.backend, hp, he]
          · simp [Action.is_observer_write]
      obtain ⟨step, g5, g6⟩ := g4
      refine ⟨h1.trans g1, h2.trans g2, h3.trans g3, step ++ extra, ?_, ?_⟩
      · rw [h4, g5, List.append_assoc]
      · intro a ha
        rcases List.mem_append.mp ha with ha | ha
        · exact g6 a ha
        · exact h5 a ha

theorem last_error_eq_none (xs : List Notification) :
    last_error xs = none ↔ ∀ n ∈ xs, n.error = none := by
  induction xs with
  | nil => simp [last_error]
  | cons x xs ih =>
    simp only [last_error, List.mem_cons, forall_eq_or_imp]
    cases h : last_error xs with
    | some e =>
      have : ¬ ∀ n ∈ xs, n.error = none := fun hall => by
        rw [ih.mpr hall] at h
        cases h
      simp [this]
    | none =>
      have hall := ih.mp h
      exact ⟨fun hx => ⟨hx, hall⟩, fun hx => hx.1⟩

theorem connect_start_run (m : Machine) (done : Bool) (created : nw_connection_t)
    (pre : List Notification) (t : Notification) (rest : List Notification)
    (hpre : ∀ n ∈ pre, n.state = nw_connection_state_preparing)
    (ht : t.state ≠ nw_connection_state_preparing) :
    network_connect_start m done created (pre ++ t :: rest) =
      { m := { network_queue := m.network_queue,
               conn_config := m.conn_config,
               connssl :=
                 { backend :=
                     { connection := some created,
                       queue := m.network_queue,
                       done := true,
                       connected := m.backend.connected,
                       error := code_from_error (last_error (pre ++ [t])) },
                   state := ssl_connection_state.ssl_connection_complete,
                   connecting_state := ssl_connect_state.ssl_connect_done },
               trace := m.trace ++ connect_setup_trace m.conn_config.verifypeer created ++
                 connect_observer_trace pre.length ++
                 [Action.nw_connection_set_state_changed_handler created Observer.handler,
                  Action.dispatch_release] },
        done := true,
        ret := some (code_from_error (last_error (pre ++ [t]))) } := by
  have hc : captured_error (pre ++ [t]) CURLcode.CURLE_OK =
      code_from_error (last_error (pre ++ [t])) := by
    rw [captured_error_eq]
    cases last_error (pre ++ [t]) <;> simp [code_from_error]
  unfold network_connect_start
  simp only []
  rw [connect_wait_run pre t rest _ hpre ht rfl]
  cases hv : m.conn_config.verifypeer <;>
    simp [Machine.emit, Machine.set_backend, Machine.backend, hc, connect_setup_trace,
      nw_parameters_create_secure_tcp, configure_tls, hv]

theorem connect_start_frame (m : Machine) (done : Bool) (created : nw_connection_t)
    (events : List Notification) :
    (network_connect_start m done created events).m.backend.connection = some created ∧
    ∃ extra closing,
      (network_connect_start m done created events).m.trace =
        m.trace ++ connect_setup_trace m.conn_config.verifypeer created ++ extra ++ closing ∧
      (∀ a ∈ extra, a.is_observer_write = true) ∧
      (closing = [] ∨ closing =
        [Action.nw_connection_set_state_changed_handler created Observer.handler,
         Action.dispatch_release]) := by
  unfold network_connect_start
  simp only []
  generalize hw : ({ m := _, done := done, semaphore := 0 } : Waiter) = w
  obtain ⟨-, -, h3, extra, h4, h5⟩ := connect_wait_frame events w
  have hwc : w.m.backend.connection = some created := by
    rw [← hw]
    simp [Machine.emit, Machine.set_backend, Machine.backend]
  have hwt : w.m.trace =
      m.trace ++ connect_setup_trace m.conn_config.verifypeer created := by
    rw [← hw]
    cases hv : m.conn_config.verifypeer <;>
      simp [Machine.emit, Machine.set_backend, Machine.backend, connect_setup_trace,
        nw_parameters_create_secure_tcp, configure_tls, hv]
  cases hr : (semaphore_wait conn_handler events w).2
  · simp only [Bool.false_eq_true, if_false]
    exact ⟨h3.trans hwc, extra, [], by rw [h4, hwt]; simp, h5, Or.inl rfl⟩
  · simp only [if_true]
    refine ⟨?_, extra, _, ?_, h5, Or.inr rfl⟩
    · simpa [Machine.emit, Machine.backend] using h3.trans hwc
    · simp [Machine.emit, h4, hwt]

theorem count_negotiating_writes_connecting (k : Nat) :
    (negotiating_writes k).count
      (Action.set_connecting_state ssl_connect_state.ssl_connect_2) = k := by
  induction k with
  | zero => rfl
  | succ k ih => simp [negotiating_writes, ih]

theorem count_negotiating_writes_state (k : Nat) :
    (negotiating_writes k).count
      (Action.set_state ssl_connection_state.ssl_connection_negotiating) = k := by
  induction k with
  | zero => rfl
  | succ k ih => simp [negotiating_writes, ih]

theorem count_negotiating_writes_other (k : Nat) (a : Action)
    (h1 : a ≠ Action.set_connecting_state ssl_connect_state.ssl_connect_2)
    (h2 : a ≠ Action.set_state ssl_connection_state.ssl_connection_negotiating) :
    (negotiating_writes k).count a = 0 := by
  induction k with
  | zero => rfl
  | succ k ih =>
    simp only [negotiating_writes]
    rw [List.count_cons_of_ne h2, List.count_cons_of_ne h1, ih]

theorem count_setup_observer_write (verifypeer : Bool) (created : nw_connection_t)
    (a : Action) (h : a.is_observer_write = true) :
    (connect_setup_trace verifypeer created).count a = 0 := by
  cases a <;> simp [Action.is_observer_write] at h <;>
    cases verifypeer <;> simp [connect_setup_trace]

/-! ## Error Mapper -/

/-- C1: `code_from_error` is defined on every input and depends only on whether
an error is present and on its domain: nil gives CURLE_OK, the dns domain
CURLE_COULDNT_RESOLVE_HOST, the posix domain CURLE_WRITE_ERROR, the tls domain
CURLE_SSL_CONNECT_ERROR, and the invalid domain and every other value
CURLE_COULDNT_CONNECT; CURLE_OK comes out only for nil. -/
theorem code_from_error_mapping :
    code_from_error none = CURLcode.CURLE_OK ∧
    (∀ code, code_from_error (some { domain := nw_error_domain_dns, code := code }) =
      CURLcode.CURLE_COULDNT_RESOLVE_HOST) ∧
    (∀ code, code_from_error (some { domain := nw_error_domain_posix, code := code }) =
      CURLcode.CURLE_WRITE_ERROR) ∧
    (∀ code, code_from_error (some { domain := nw_error_domain_tls, code := code }) =
      CURLcode.CURLE_SSL_CONNECT_ERROR) ∧
    (∀ code, code_from_error (some { domain := nw_error_domain_invalid, code := code }) =
      CURLcode.CURLE_COULDNT_CONNECT) ∧
    (∀ domain code, domain ≠ nw_error_domain_dns → domain ≠ nw_error_domain_posix →
      domain ≠ nw_error_domain_tls →
      code_from_error (some { domain := domain, code := code }) =
        CURLcode.CURLE_COULDNT_CONNECT) ∧
    (∀ e1 e2 : nw_error, e1.domain = e2.domain →
      code_from_error (some e1) = code_from_error (some e2)) ∧
    (∀ error, code_from_error error = CURLcode.CURLE_OK ↔ error = none) := by
  refine ⟨rfl, fun _ => rfl, fun _ => rfl, fun _ => rfl, fun _ => rfl, ?_, ?_, ?_⟩
  · intro domain code h1 h2 h3
    simp [code_from_error, nw_error_get_error_domain, h1, h2, h3]
  · intro e1 e2 h
    simp [code_from_error, nw_error_get_error_domain, h]
  · intro error
    cases error with
    | none => simp [code_from_error]
    | some e => simpa using code_from_error_some_ne_ok e

/-! ## Connect -/

/-- C2: when the notifications delivered to the connect observer are preparing
notifications followed by a first notification of any other state (ready,
waiting, invalid and failed among them), `network_connect_start` returns, and
what it returns is `code_from_error` of the error of the last notification of
that sequence that carried one; it is CURLE_OK exactly when none of them
carried an error, and an error code already stored in the backend state does
not change it. -/
theorem connect_start_returns_last_mapped_error (m : Machine) (done : Bool)
    (created : nw_connection_t) (pre : List Notification) (t : Notification)
    (rest : List Notification) (stale : CURLcode)
    (hpre : ∀ n ∈ pre, n.state = nw_connection_state_preparing)
    (ht : t.state ≠ nw_connection_state_preparing) :
    (network_connect_start m done created (pre ++ t :: rest)).ret =
      some (code_from_error (last_error (pre ++ [t]))) ∧
    ((network_connect_start m done created (pre ++ t :: rest)).ret =
        some CURLcode.CURLE_OK ↔ ∀ n ∈ pre ++ [t], n.error = none) ∧
    (network_connect_start (m.set_backend { m.backend with error := stale }) done created
        (pre ++ t :: rest)).ret =
      (network_connect_start m done created (pre ++ t :: rest)).ret := by
  rw [connect_start_run m done created pre t rest hpre ht,
    connect_start_run _ done created pre t rest hpre ht]
  refine ⟨rfl, ?_, rfl⟩
  simp only [Option.some.injEq]
  rw [← last_error_eq_none]
  cases h : last_error (pre ++ [t]) with
  | none => simp [code_from_error]
  | some e => simpa using code_from_error_some_ne_ok e

/-- C2 at a concrete input: an attempt that starts with a stale write error in
the backend state, sees preparing and then failed with a TLS-domain error. -/
theorem connect_start_returns_last_mapped_error_witness :
    (network_connect_start idle_machine false 7
        ([{ state := nw_connection_state_preparing, error := none }] ++
          { state := nw_connection_state_failed,
            error := some { domain := nw_error_domain_tls, code := -9807 } } :: [])).ret =
      some CURLcode.CURLE_SSL_CONNECT_ERROR :=
  (connect_start_returns_last_mapped_error idle_machine false 7
    [{ state := nw_connection_state_preparing, error := none }]
    { state := nw_connection_state_failed,
      error := some { domain := nw_error_domain_tls, code := -9807 } } []
    CURLcode.CURLE_WRITE_ERROR (by simp) (by decide)).1

/-- C10 as stated fails: when the first notification is already ready, the
connect observer never sets the connect-phase fields to negotiating; when two
preparing notifications precede ready, it sets them twice; and the observer
block itself, handed a preparing notification after a waiting one, writes
negotiating over the completed state. -/
theorem connect_negotiating_not_exactly_once :
    (network_connect_start idle_machine false 7
        [{ state := nw_connection_state_ready, error := none }]).m.trace.count
      (Action.set_connecting_state ssl_connect_state.ssl_connect_2) = 0 ∧
    (network_connect_start idle_machine false 7
        [{ state := nw_connection_state_preparing, error := none },
         { state := nw_connection_state_preparing, error := none },
         { state := nw_connection_state_ready, error := none }]).m.trace.count
      (Action.set_connecting_state ssl_connect_state.ssl_connect_2) = 2 ∧
    (conn_handler { state := nw_connection_state_preparing, error := none }
        (conn_handler { state := nw_connection_state_waiting, error := none }
          { m := idle_machine, done := false, semaphore := 0 })).m.connssl.connecting_state =
      ssl_connect_state.ssl_connect_2 := by
  refine ⟨?_, ?_, ?_⟩ <;> decide

/-- C10 amended: over preparing notifications followed by the first
notification of another state, the connect observer writes negotiating once
per preparing notification, then writes complete once and signals the
rendezvous once; nothing follows in the trace but the observer swap and the
release, and the fields end as complete. -/
theorem connect_observer_writes (m : Machine) (done : Bool) (created : nw_connection_t)
    (pre : List Notification) (t : Notification) (rest : List Notification)
    (hpre : ∀ n ∈ pre, n.state = nw_connection_state_preparing)
    (ht : t.state ≠ nw_connection_state_preparing) :
    (network_connect_start m done created (pre ++ t :: rest)).m.trace =
      m.trace ++ connect_setup_trace m.conn_config.verifypeer created ++
        (negotiating_writes pre.length ++
          [Action.set_connecting_state ssl_connect_state.ssl_connect_done,
           Action.set_state ssl_connection_state.ssl_connection_complete,
           Action.dispatch_semaphore_signal]) ++
        [Action.nw_connection_set_state_changed_handler created Observer.handler,
         Action.dispatch_release] ∧
    (network_connect_start m done created (pre ++ t :: rest)).m.trace.count
        (Action.set_connecting_state ssl_connect_state.ssl_connect_2) =
      m.trace.count (Action.set_connecting_state ssl_connect_state.ssl_connect_2) +
        pre.length ∧
    (network_connect_start m done created (pre ++ t :: rest)).m.trace.count
        (Action.set_state ssl_connection_state.ssl_connection_negotiating) =
      m.trace.count (Action.set_state ssl_connection_state.ssl_connection_negotiating) +
        pre.length ∧
    (network_connect_start m done created (pre ++ t :: rest)).m.trace.count
        (Action.set_connecting_state ssl_connect_state.ssl_connect_done) =
      m.trace.count (Action.set_connecting_state ssl_connect_state.ssl_connect_done) + 1 ∧
    (network_connect_start m done created (pre ++ t :: rest)).m.trace.count
        (Action.set_state ssl_connection_state.ssl_connection_complete) =
      m.trace.count (Action.set_state ssl_connection_state.ssl_connection_complete) + 1 ∧
    (network_connect_start m done created (pre ++ t :: rest)).m.trace.count
        Action.dispatch_semaphore_signal =
      m.trace.count Action.dispatch_semaphore_signal + 1 ∧
    (network_connect_start m done created (pre ++ t :: rest)).m.connssl.connecting_state =
      ssl_connect_state.ssl_connect_done ∧
    (network_connect_start m done created (pre ++ t :: rest)).m.connssl.state =
      ssl_connection_state.ssl_connection_complete := by
  rw [connect_start_run m done created pre t rest hpre ht]
  refine ⟨rfl, ?_, ?_, ?_, ?_, ?_, rfl, rfl⟩ <;>
    simp [connect_observer_trace, List.count_append, count_setup_observer_write,
      Action.is_observer_write, count_negotiating_writes_connecting,
      count_negotiating_writes_state, count_negotiating_writes_other]

/-- C10 amended at a concrete input: one preparing notification, then ready. -/
theorem connect_observer_writes_witness :
    (network_connect_start idle_machine false 7
        ([{ state := nw_connection_state_preparing, error := none }] ++
          { state := nw_connection_state_ready, error := none } :: [])).m.trace.count
        (Action.set_connecting_state ssl_connect_state.ssl_connect_2) = 1 :=
  (connect_observer_writes idle_machine false 7
    [{ state := nw_connection_state_preparing, error := none }]
    { state := nw_connection_state_ready, error := none } []
    (by simp) (by decide)).2.1

theorem countP_create_setup (verifypeer : Bool) (created : nw_connection_t) :
    (connect_setup_trace verifypeer created).countP Action.is_create = 1 := by
  cases verifypeer <;> rfl

theorem countP_create_observer_writes (extra : List Action)
    (h : ∀ a ∈ extra, a.is_observer_write = true) :
    extra.countP Action.is_create = 0 := by
  rw [List.countP_eq_zero]
  intro a ha
  have := h a ha
  cases a <;> simp [Action.is_observer_write] at this <;> simp [Action.is_create]

theorem count_verify_block_observer_writes (extra : List Action)
    (h : ∀ a ∈ extra, a.is_observer_write = true) :
    extra.count Action.sec_protocol_options_set_verify_block = 0 := by
  rw [List.count_eq_zero]
  intro ha
  simpa [Action.is_observer_write] using h _ ha

theorem connect_start_creates_one (m : Machine) (done : Bool) (created : nw_connection_t)
    (events : List Notification) :
    (network_connect_start m done created events).m.trace.countP Action.is_create =
      m.trace.countP Action.is_create + 1 := by
  obtain ⟨-, extra, closing, h1, h2, h3⟩ := connect_start_frame m done created events
  rw [h1]
  simp only [List.countP_append, countP_create_setup, countP_create_observer_writes extra h2]
  rcases h3 with h3 | h3 <;> subst h3 <;> simp [Action.is_create]

theorem connect_common_query (m : Machine) (done : Bool) (created : nw_connection_t)
    (events : List Notification) (c : nw_connection_t)
    (h : m.backend.connection = some c) :
    network_connect_common m done created events =
      { m := m, done := if m.backend.done then true else done,
        ret := some m.backend.error } := by
  simp [network_connect_common, h, connect_report]

theorem connect_common_machine (m : Machine) (done : Bool) (created : nw_connection_t)
    (events : List Notification) (h : m.backend.connection = none) :
    (network_connect_common m done created events).m =
      (network_connect_start m done created events).m := by
  simp only [network_connect_common, h, Option.isNone_none, if_true]
  cases hr : (network_connect_start m done created events).ret with
  | none => simp
  | some result =>
    simp only []
    split_ifs <;> simp [connect_report]

theorem repoll_with_handle (calls : List (nw_connection_t × List Notification))
    (m : Machine) (done : Bool) (c : nw_connection_t)
    (h : m.backend.connection = some c) :
    (repoll calls m done).1 = m := by
  induction calls generalizing done with
  | nil => rfl
  | cons call later ih =>
    obtain ⟨created, events⟩ := call
    simp only [repoll, network_connect_nonblocking,
      connect_common_query m done created events c h]
    exact ih _

theorem repoll_creates_at_most_one (calls : List (nw_connection_t × List Notification))
    (m : Machine) (done : Bool) :
    (repoll calls m done).1.trace.countP Action.is_create ≤
      m.trace.countP Action.is_create + 1 := by
  cases hc : m.backend.connection with
  | some c => rw [repoll_with_handle calls m done c hc]; omega
  | none =>
    cases calls with
    | nil => simp [repoll]
    | cons call later =>
      obtain ⟨created, events⟩ := call
      have hm := connect_common_machine m done created events hc
      have hone := connect_start_creates_one m done created events
      have hconn := (connect_start_frame m done created events).1
      simp only [repoll, network_connect_nonblocking]
      cases hr : (network_connect_common m done created events).ret with
      | none =>
        simp only []
        rw [hm, hone]
      | some code =>
        simp only []
        rw [repoll_with_handle later _ _ created (by rw [hm]; exact hconn), hm, hone]

/-- C3: on a backend state that holds a connection object,
`network_connect_nonblocking` performs no action at all (no call of
`network_connect_start`, no new object), leaves the whole program state, the
backend fields included, as it was, returns the stored error code, and sets the
caller's done to true exactly when the stored done flag is set, leaving it
alone otherwise; repeated calls leave the state as it was, and from any
backend state repeated calls create at most one connection object. -/
theorem connect_nonblocking_is_query (m : Machine) (done : Bool)
    (created : nw_connection_t) (events : List Notification)
    (calls : List (nw_connection_t × List Notification)) (c : nw_connection_t)
    (h : m.backend.connection = some c) :
    (network_connect_nonblocking m done created events).m = m ∧
    (network_connect_nonblocking m done created events).m.trace = m.trace ∧
    (network_connect_nonblocking m done created events).m.backend.connection = some c ∧
    (network_connect_nonblocking m done created events).ret = some m.backend.error ∧
    (network_connect_nonblocking m done created events).done =
      (if m.backend.done then true else done) ∧
    (repoll calls m done).1 = m ∧
    (∀ (m0 : Machine) (done0 : Bool),
      (repoll calls m0 done0).1.trace.countP Action.is_create ≤
        m0.trace.countP Action.is_create + 1) := by
  unfold network_connect_nonblocking
  rw [connect_common_query m done created events c h]
  exact ⟨rfl, rfl, h, rfl, rfl, repoll_with_handle calls m done c h,
    fun m0 done0 => repoll_creates_at_most_one calls m0 done0⟩

/-- C3 at a concrete input: three polls of a completed connect, whatever the
platform would have answered. -/
theorem connect_nonblocking_is_query_witness :
    (network_connect_nonblocking connected_machine false 8
        [{ state := nw_connection_state_ready, error := none }]).m = connected_machine ∧
    (repoll [(8, []), (9, [{ state := nw_connection_state_ready, error := none }]), (10, [])]
        connected_machine false).1 = connected_machine :=
  ⟨(connect_nonblocking_is_query connected_machine false 8
      [{ state := nw_connection_state_ready, error := none }]
      [(8, []), (9, [{ state := nw_connection_state_ready, error := none }]), (10, [])]
      7 rfl).1,
   (connect_nonblocking_is_query connected_machine false 8
      [{ state := nw_connection_state_ready, error := none }]
      [(8, []), (9, [{ state := nw_connection_state_ready, error := none }]), (10, [])]
      7 rfl).2.2.2.2.2.1⟩

/-- C6: `network_connect_start` installs the verify block once when
`verifypeer` is false and not at all when it is true, whatever the platform
delivers afterwards; the TLS configuration block does nothing else; and the
verify block completes with true for every metadata and trust. -/
theorem verify_block_installed_iff_verifypeer_off {α : Type} (m : Machine) (done : Bool)
    (created : nw_connection_t) (events : List Notification)
    (metadata trust_ref : Nat) (complete : Bool → α) :
    (network_connect_start m done created events).m.trace.count
        Action.sec_protocol_options_set_verify_block =
      m.trace.count Action.sec_protocol_options_set_verify_block +
        (if m.conn_config.verifypeer then 0 else 1) ∧
    (configure_tls m.conn_config m).trace =
      m.trace ++ (if m.conn_config.verifypeer then []
        else [Action.nw_tls_copy_sec_protocol_options,
              Action.sec_protocol_options_set_verify_block]) ∧
    (Action.sec_protocol_options_set_verify_block ∈
        connect_setup_trace m.conn_config.verifypeer created ↔
      m.conn_config.verifypeer = false) ∧
    verify_block metadata trust_ref complete = complete true := by
  refine ⟨?_, ?_, ?_, rfl⟩
  · obtain ⟨-, extra, closing, h1, h2, h3⟩ := connect_start_frame m done created events
    rw [h1]
    simp only [List.count_append, count_verify_block_observer_writes extra h2]
    rcases h3 with h3 | h3 <;> subst h3 <;>
      cases m.conn_config.verifypeer <;> simp [connect_setup_trace]
  · cases hv : m.conn_config.verifypeer <;> simp [configure_tls, Machine.emit, hv]
  · cases m.conn_config.verifypeer <;> simp [connect_setup_trace]

/-! ## Teardown -/

theorem shutdown_wait_frame (events : List Notification) (w : Waiter) :
    (semaphore_wait shutdown_handler events w).1.m.backend.connection =
      w.m.backend.connection ∧
    ∃ extra, (semaphore_wait shutdown_handler events w).1.m.trace = w.m.trace ++ extra ∧
      ∀ a ∈ extra, a = Action.dispatch_semaphore_signal := by
  induction events generalizing w with
  | nil =>
    refine ⟨?_, [], ?_, ?_⟩ <;> simp [semaphore_wait] <;> split_ifs <;> simp
  | cons n rest ih =>
    by_cases h : 0 < w.semaphore
    · rw [semaphore_wait_signalled _ _ _ h]
      exact ⟨rfl, [], by simp, by simp⟩
    · have h0 : w.semaphore = 0 := by omega
      rw [semaphore_wait_step _ _ _ _ h0]
      obtain ⟨h3, extra, h4, h5⟩ := ih (shutdown_handler n w)
      have g3 : (shutdown_handler n w).m.backend.connection = w.m.backend.connection := by
        simp only [shutdown_handler, Machine.emit, Machine.set_backend, Machine.backend]
        split_ifs <;> rfl
      have g4 : ∃ step, (shutdown_handler n w).m.trace = w.m.trace ++ step ∧
          ∀ a ∈ step, a = Action.dispatch_semaphore_signal := by
        by_cases hsig : n.state = nw_connection_state_cancelled ∨
            n.state = nw_connection_state_invalid ∨ n.state = nw_connection_state_failed
        · refine ⟨[Action.dispatch_semaphore_signal], ?_, by simp⟩
          simp only [shutdown_handler, Machine.emit, Machine.set_backend, Machine.backend]
          rcases hsig with hs | hs | hs <;> rw [hs] <;> simp <;> split_ifs <;> rfl
        · refine ⟨[], ?_, by simp⟩
          simp only [not_or] at hsig
          simp only [shutdown_handler, Machine.emit, Machine.set_backend, Machine.backend,
            hsig.1, hsig.2.1, hsig.2.2, or_self, if_false]
          split_ifs <;> simp
      obtain ⟨step, g5, g6⟩ := g4
      refine ⟨h3.trans g3, step ++ extra, ?_, ?_⟩
      · rw [h4, g5, List.append_assoc]
      · intro a ha
        rcases List.mem_append.mp ha with ha | ha
        · exact g6 a ha
        · exact h5 a ha

theorem shutdown_wait_run (pre : List Notification) (t : Notification)
    (rest : List Notification) (w : Waiter)
    (hpre : ∀ n ∈ pre, n.state ≠ nw_connection_state_cancelled ∧
      n.state ≠ nw_connection_state_invalid ∧ n.state ≠ nw_connection_state_failed)
    (ht : t.state = nw_connection_state_cancelled ∨
      t.state = nw_connection_state_invalid ∨ t.state = nw_connection_state_failed)
    (hs : w.semaphore = 0) :
    (semaphore_wait shutdown_handler (pre ++ t :: rest) w).2 = true ∧
    (semaphore_wait shutdown_handler (pre ++ t :: rest) w).1.done = true ∧
    (semaphore_wait shutdown_handler (pre ++ t :: rest) w).1.m.trace =
      w.m.trace ++ [Action.dispatch_semaphore_signal] := by
  induction pre generalizing w with
  | nil =>
    have h1 : 0 < (shutdown_handler t w).semaphore := by
      simp only [shutdown_handler]
      rcases ht with h | h | h <;> rw [h] <;> simp
    rw [List.nil_append, semaphore_wait_step _ _ _ _ hs, semaphore_wait_signalled _ _ _ h1]
    simp only [shutdown_handler, Machine.emit, Machine.set_backend, Machine.backend]
    rcases ht with h | h | h <;> rw [h] <;> simp <;> split_ifs <;> simp
  | cons p pre ih =>
    have hp := hpre p (by simp)
    have hpre2 : ∀ n ∈ pre, n.state ≠ nw_connection_state_cancelled ∧
        n.state ≠ nw_connection_state_invalid ∧ n.state ≠ nw_connection_state_failed :=
      fun n hn => hpre n (by simp [hn])
    have h0 : (shutdown_handler p w).semaphore = 0 := by
      simp [shutdown_handler, hp.1, hp.2.1, hp.2.2, hs]
    have ht0 : (shutdown_handler p w).m.trace = w.m.trace := by
      simp only [shutdown_handler, hp.1, hp.2.1, hp.2.2, or_self, if_false,
        Machine.set_backend]
      split_ifs <;> rfl
    rw [List.cons_append, semaphore_wait_step _ _ _ _ hs]
    obtain ⟨i1, i2, i3⟩ := ih (shutdown_handler p w) hpre2 h0
    exact ⟨i1, i2, by rw [i3, ht0]⟩

theorem shutdown_frame (m : Machine) (done : Bool) (events : List Notification)
    (c : nw_connection_t) (h : m.backend.connection = some c) :
    (network_shutdown m done events).m.backend.connection = some c ∧
    ∃ extra closing,
      (network_shutdown m done events).m.trace =
        m.trace ++ shutdown_setup_trace c ++ extra ++ closing ∧
      (∀ a ∈ extra, a = Action.dispatch_semaphore_signal) ∧
      (closing = [] ∨ closing = [Action.dispatch_release]) := by
  unfold network_shutdown
  simp only [h]
  generalize hw : ({ m := _, done := done, semaphore := 0 } : Waiter) = w
  obtain ⟨h3, extra, h4, h5⟩ := shutdown_wait_frame events w
  have hwc : w.m.backend.connection = some c := by
    rw [← hw]
    simpa [Machine.emit, Machine.backend] using h
  have hwt : w.m.trace = m.trace ++ shutdown_setup_trace c := by
    rw [← hw]
    simp [Machine.emit, shutdown_setup_trace]
  cases hr : (semaphore_wait shutdown_handler events w).2
  · simp only [Bool.false_eq_true, if_false]
    exact ⟨h3.trans hwc, extra, [], by rw [h4, hwt]; simp, h5, Or.inl rfl⟩
  · simp only [if_true]
    refine ⟨?_, extra, _, ?_, h5, Or.inr rfl⟩
    · simpa [Machine.emit, Machine.backend] using h3.trans hwc
    · simp [Machine.emit, h4, hwt]

theorem shutdown_run (m : Machine) (done : Bool) (c : nw_connection_t)
    (pre : List Notification) (t : Notification) (rest : List Notification)
    (h : m.backend.connection = some c)
    (hpre : ∀ n ∈ pre, n.state ≠ nw_connection_state_cancelled ∧
      n.state ≠ nw_connection_state_invalid ∧ n.state ≠ nw_connection_state_failed)
    (ht : t.state = nw_connection_state_cancelled ∨
      t.state = nw_connection_state_invalid ∨ t.state = nw_connection_state_failed) :
    (network_shutdown m done (pre ++ t :: rest)).ret =
      some (network_shutdown m done (pre ++ t :: rest)).m.backend.error ∧
    (network_shutdown m done (pre ++ t :: rest)).done = true ∧
    (network_shutdown m done (pre ++ t :: rest)).m.trace =
      m.trace ++ shutdown_setup_trace c ++
        [Action.dispatch_semaphore_signal, Action.dispatch_release] := by
  unfold network_shutdown
  simp only [h]
  generalize hw : ({ m := _, done := done, semaphore := 0 } : Waiter) = w
  have hwt : w.m.trace = m.trace ++ shutdown_setup_trace c := by
    rw [← hw]
    simp [Machine.emit, shutdown_setup_trace]
  have hws : w.semaphore = 0 := by rw [← hw]
  obtain ⟨i1, i2, i3⟩ := shutdown_wait_run pre t rest w hpre ht hws
  refine ⟨?_, ?_, ?_⟩
  · simp [i1]
  · simp [i1, i2]
  · simp [i1, Machine.emit, i3, hwt]

theorem shutdown_starved (m : Machine) (done : Bool) (c : nw_connection_t)
    (h : m.backend.connection = some c) :
    (network_shutdown m done []).ret = none := by
  simp [network_shutdown, h, semaphore_wait]

theorem shutdown_without_handle (m : Machine) (done : Bool) (events : List Notification)
    (h : m.backend.connection = none) :
    network_shutdown m done events =
      { m := m, done := done, ret := some CURLcode.CURLE_OK } := by
  simp [network_shutdown, h]

theorem shutdown_no_release (m : Machine) (done : Bool) (events : List Notification)
    (c : nw_connection_t) :
    (network_shutdown m done events).m.trace.count (Action.nw_release c) =
      m.trace.count (Action.nw_release c) := by
  cases h : m.backend.connection with
  | none => rw [shutdown_without_handle m done events h]
  | some held =>
    obtain ⟨-, extra, closing, h1, h2, h3⟩ := shutdown_frame m done events held h
    have hx : extra.count (Action.nw_release c) = 0 := by
      rw [List.count_eq_zero]
      intro ha
      cases h2 _ ha
    rw [h1]
    simp only [List.count_append, hx]
    rcases h3 with h3 | h3 <;> subst h3 <;> simp [shutdown_setup_trace]

theorem close_of_none (m : Machine) (h : m.backend.connection = none) :
    network_close m = m := by
  simp only [network_close, h]

theorem close_of_some (m : Machine) (c : nw_connection_t)
    (h : m.backend.connection = some c) :
    network_close m =
      (m.emit [Action.nw_release c]).set_backend { m.backend with connection := none } := by
  simp only [network_close, h]

theorem close_idempotent (m : Machine) :
    network_close (network_close m) = network_close m := by
  cases h : m.backend.connection with
  | none => rw [close_of_none m h, close_of_none m h]
  | some c =>
    rw [close_of_some m c h]
    exact close_of_none _ rfl

theorem close_iterate (m : Machine) (n : Nat) :
    network_close^[n + 1] m = network_close m := by
  induction n with
  | zero => rfl
  | succ n ih => rw [Function.iterate_succ_apply', ih, close_idempotent]

theorem close_trace (m : Machine) :
    (network_close m).trace =
      m.trace ++ (match m.backend.connection with
        | some held => [Action.nw_release held]
        | none => []) := by
  cases h : m.backend.connection with
  | none => rw [close_of_none m h]; simp
  | some c => rw [close_of_some m c h]; rfl

theorem close_iterate_count (m : Machine) (n : Nat) (c : nw_connection_t) :
    (network_close^[n] m).trace.count (Action.nw_release c) ≤
      m.trace.count (Action.nw_release c) + 1 := by
  cases n with
  | zero => simp
  | succ n =>
    rw [close_iterate, close_trace, List.count_append]
    cases m.backend.connection with
    | none => simp
    | some held =>
      have : [Action.nw_release held].count (Action.nw_release c) ≤ 1 := by
        rw [List.count_singleton]
        split_ifs <;> omega
      simpa using this

/-- C7 on the code: with no connection object and the caller's done false on
entry, `network_shutdown` returns CURLE_OK without any action and the caller's
done is still false. -/
theorem shutdown_without_handle_leaves_done_false :
    network_shutdown idle_machine false [] =
      { m := idle_machine, done := false, ret := some CURLcode.CURLE_OK } := by
  decide

/-- C8 as stated fails: after a shutdown that completed on a cancelled
notification the backend still holds object 7, and a second shutdown cancels it
again and, with nothing more delivered, never returns. -/
theorem shutdown_twice_not_noop :
    (network_shutdown connected_machine false
        [{ state := nw_connection_state_cancelled, error := none }]).ret =
      some CURLcode.CURLE_OK ∧
    (network_shutdown connected_machine false
        [{ state := nw_connection_state_cancelled, error := none }]).m.backend.connection =
      some 7 ∧
    (network_shutdown
        (network_shutdown connected_machine false
          [{ state := nw_connection_state_cancelled, error := none }]).m false []).ret =
      none ∧
    (network_shutdown
        (network_shutdown connected_machine false
          [{ state := nw_connection_state_cancelled, error := none }]).m false
        []).m.trace.count (Action.nw_connection_cancel 7) = 2 := by
  refine ⟨?_, ?_, ?_, ?_⟩ <;> decide

/-- C8 amended: on a backend state that holds a connection object, a shutdown
that is delivered a cancelled, invalid or failed notification completes with
done true and leaves the object in the backend state; a second shutdown
therefore installs its observer, cancels and waits again, does not return when
nothing more is delivered, and returns with done true when a further
cancelled, invalid or failed notification is. -/
theorem shutdown_keeps_handle (m : Machine) (done done2 : Bool) (c : nw_connection_t)
    (pre : List Notification) (t : Notification) (rest events2 : List Notification)
    (h : m.backend.connection = some c)
    (hpre : ∀ n ∈ pre, n.state ≠ nw_connection_state_cancelled ∧
      n.state ≠ nw_connection_state_invalid ∧ n.state ≠ nw_connection_state_failed)
    (ht : t.state = nw_connection_state_cancelled ∨
      t.state = nw_connection_state_invalid ∨ t.state = nw_connection_state_failed) :
    (network_shutdown m done (pre ++ t :: rest)).ret ≠ none ∧
    (network_shutdown m done (pre ++ t :: rest)).done = true ∧
    (network_shutdown m done (pre ++ t :: rest)).m.backend.connection = some c ∧
    (∃ extra closing,
      (network_shutdown (network_shutdown m done (pre ++ t :: rest)).m done2 events2).m.trace =
        (network_shutdown m done (pre ++ t :: rest)).m.trace ++
          [Action.dispatch_semaphore_create,
           Action.nw_connection_set_state_changed_handler c Observer.shutdown_handler,
           Action.nw_connection_cancel c,
           Action.dispatch_semaphore_wait] ++ extra ++ closing) ∧
    (network_shutdown (network_shutdown m done (pre ++ t :: rest)).m done2 []).ret = none ∧
    (network_shutdown (network_shutdown m done (pre ++ t :: rest)).m done2
        (pre ++ t :: rest)).ret ≠ none ∧
    (network_shutdown (network_shutdown m done (pre ++ t :: rest)).m done2
        (pre ++ t :: rest)).done = true := by
  have hkeep := (shutdown_frame m done (pre ++ t :: rest) c h).1
  obtain ⟨r1, r2, -⟩ := shutdown_run m done c pre t rest h hpre ht
  obtain ⟨-, extra, closing, f1, -, -⟩ :=
    shutdown_frame (network_shutdown m done (pre ++ t :: rest)).m done2 events2 c hkeep
  obtain ⟨s1, s2, -⟩ :=
    shutdown_run (network_shutdown m done (pre ++ t :: rest)).m done2 c pre t rest
      hkeep hpre ht
  refine ⟨by rw [r1]; simp, r2, hkeep, ⟨extra, closing, f1⟩,
    shutdown_starved _ done2 c hkeep, by rw [s1]; simp, s2⟩

/-- C8 amended at a concrete input: a completed connect on object 7, shut down
with a cancelled notification. -/
theorem shutdown_keeps_handle_witness :
    (network_shutdown connected_machine false
        ([] ++ { state := nw_connection_state_cancelled, error := none } ::
          [])).m.backend.connection = some 7 :=
  (shutdown_keeps_handle connected_machine false false 7 []
    { state := nw_connection_state_cancelled, error := none } [] [] rfl
    (by simp) (Or.inl rfl)).2.2.1

/-- C9: `network_close` leaves the connection reference NULL and every other
field of the backend state and of the program state as it was; it releases the
object once when one was held and performs no action otherwise; a second close
changes nothing, and any number of closes, after a shutdown or not, releases a
given object at most once. -/
theorem close_releases_once (m : Machine) (n : Nat) (c : nw_connection_t) (done : Bool)
    (events : List Notification) :
    (network_close m).backend = { m.backend with connection := none } ∧
    (network_close m).connssl.state = m.connssl.state ∧
    (network_close m).connssl.connecting_state = m.connssl.connecting_state ∧
    (network_close m).conn_config = m.conn_config ∧
    (network_close m).network_queue = m.network_queue ∧
    (network_close m).trace =
      m.trace ++ (match m.backend.connection with
        | some held => [Action.nw_release held]
        | none => []) ∧
    network_close (network_close m) = network_close m ∧
    (network_close^[n] m).trace.count (Action.nw_release c) ≤
      m.trace.count (Action.nw_release c) + 1 ∧
    (network_close^[n] (network_shutdown m done events).m).trace.count (Action.nw_release c) ≤
      m.trace.count (Action.nw_release c) + 1 := by
  refine ⟨?_, ?_, ?_, ?_, ?_, close_trace m, close_idempotent m,
    close_iterate_count m n c, ?_⟩
  · cases h : m.backend.connection with
    | none =>
      rw [close_of_none m h, ← h]
    | some held => rw [close_of_some m held h]; rfl
  · cases h : m.backend.connection with
    | none => rw [close_of_none m h]
    | some held => rw [close_of_some m held h]; rfl
  · cases h : m.backend.connection with
    | none => rw [close_of_none m h]
    | some held => rw [close_of_some m held h]; rfl
  · cases h : m.backend.connection with
    | none => rw [close_of_none m h]
    | some held => rw [close_of_some m held h]; rfl
  · cases h : m.backend.connection with
    | none => rw [close_of_none m h]
    | some held => rw [close_of_some m held h]; rfl
  · have := close_iterate_count (network_shutdown m done events).m n c
    rwa [shutdown_no_release] at this

/-! ## Receive -/

/-- C4: a receive completion that carries an error makes `network_recv` return
-1 with CURLE_RECV_ERROR, whatever content came with it; a completion with no
error and no content makes it return 0 with CURLE_OK; the two results differ
in the returned count and in the outcome code. -/
theorem recv_error_and_end_of_stream (m : Machine) (buf : Nat → Nat) (len : Nat)
    (err : CURLcode) (content : Option dispatch_data) (is_complete : Bool) (e : nw_error) :
    (network_recv m buf len err
        (some { content := content, is_complete := is_complete, error := some e })).ret =
      some (-1) ∧
    (network_recv m buf len err
        (some { content := content, is_complete := is_complete, error := some e })).err =
      CURLcode.CURLE_RECV_ERROR ∧
    (network_recv m buf len err
        (some { content := none, is_complete := is_complete, error := none })).ret =
      some 0 ∧
    (network_recv m buf len err
        (some { content := none, is_complete := is_complete, error := none })).err =
      CURLcode.CURLE_OK ∧
    (network_recv m buf len err
        (some { content := content, is_complete := is_complete, error := some e })).ret ≠
      (network_recv m buf len err
        (some { content := none, is_complete := is_complete, error := none })).ret ∧
    (network_recv m buf len err
        (some { content := content, is_complete := is_complete, error := some e })).err ≠
      (network_recv m buf len err
        (some { content := none, is_complete := is_complete, error := none })).err := by
  simp [network_recv, recv_completion]

/-- Beyond what the platform may deliver for the request of line 363: were a
completion to carry three bytes in two regions against a `len` of 2, the
reported count would be clamped to 2 while the applier still copied both
regions whole, the second one reaching offset 2. -/
theorem recv_oversized_content_overflows :
    (network_recv connected_machine (fun _ => 0) 2 CURLcode.CURLE_OK
        (some { content := some [[10], [20, 30]], is_complete := true,
                error := none })).ret = some 2 ∧
    (network_recv connected_machine (fun _ => 0) 2 CURLcode.CURLE_OK
        (some { content := some [[10], [20, 30]], is_complete := true,
                error := none })).err = CURLcode.CURLE_OK ∧
    (network_recv connected_machine (fun _ => 0) 2 CURLcode.CURLE_OK
        (some { content := some [[10], [20, 30]], is_complete := true,
                error := none })).buf 2 = 30 ∧
    Action.memcpy 1 [20, 30] ∈
      (network_recv connected_machine (fun _ => 0) 2 CURLcode.CURLE_OK
        (some { content := some [[10], [20, 30]], is_complete := true,
                error := none })).m.trace ∧
    bytes_copied
      (network_recv connected_machine (fun _ => 0) 2 CURLcode.CURLE_OK
        (some { content := some [[10], [20, 30]], is_complete := true,
                error := none })).m.trace = 3 := by
  refine ⟨?_, ?_, ?_, ?_, ?_⟩ <;> decide

end Networkfmwk
